import Mathlib

/-!
# protopixel lamp: control logic of `protopixel_lamp/src/main.c`

A shallow embedding of the handlers of `main.c`.  The three process-wide
variables of the program (`led_level`, the function-static `direction` of
`app_initiator_long_press_cb`, and `s_espnow_ctrl_status`) become the fields of
`State`; every call a handler makes into the platform (LEDC driver, ESP-NOW
control component, logger) is appended to a trace of `Effect`s, in program
order.  A handler yields an `Outcome`: it either returns, or it stops inside
`ESP_ERROR_CHECK`.

Machine integers are `Int`/`Nat` with explicit reduction: `int32_t` values are
kept in `[-2^31, 2^31)` by `wrapInt32`, conversions to `uint32_t` and `uint8_t`
are `toUInt32` and `toUInt8`.
-/

namespace Protopixel

/-! ## Machine integers -/

/-- Reduction of an integer to the `int32_t` range (two's complement). -/
def wrapInt32 (x : Int) : Int := (x + 2147483648) % 4294967296 - 2147483648

/-- Conversion of an integer to `uint32_t`. -/
def toUInt32 (x : Int) : Nat := (x % 4294967296).toNat

/-- Conversion of an integer to `uint8_t`, as at a call of `app_led_set_level`. -/
def toUInt8 (x : Int) : Nat := (x % 256).toNat

/-! ## Platform types

The enums below are declared in platform headers (`espnow_ctrl.h`, `espnow.h`,
`iot_button.h`, `esp_log.h`).  Each is embedded with the enumerators that
`main.c` names, which are pairwise distinct values, and one constructor for
every other value of the type. -/

/-- Attribute tags of `espnow_ctrl.h`. -/
inductive espnow_attribute_t
  | ESPNOW_ATTRIBUTE_KEY_1
  | ESPNOW_ATTRIBUTE_POWER
  | other (code : Nat)
  deriving DecidableEq, Repr

/-- Bind error reasons of `espnow_ctrl.h`. -/
inductive espnow_ctrl_bind_error_t
  | ESPNOW_BIND_ERROR_NONE
  | ESPNOW_BIND_ERROR_TIMEOUT
  | ESPNOW_BIND_ERROR_RSSI
  | ESPNOW_BIND_ERROR_LIST_FULL
  | other (code : Nat)
  deriving DecidableEq, Repr

/-- Payload of the bind and unbind events: `espnow_ctrl_bind_info_t`. -/
structure espnow_ctrl_bind_info_t where
  mac : List Nat
  initiator_attribute : espnow_attribute_t
  deriving DecidableEq, Repr

/-- Button events of `iot_button.h`, the value of `iot_button_get_event(arg)`. -/
inductive button_event_t
  | BUTTON_SINGLE_CLICK
  | BUTTON_DOUBLE_CLICK
  | BUTTON_LONG_PRESS_HOLD
  | other (code : Nat)
  deriving DecidableEq, Repr

/-- Event bases; `app_espnow_event_handler` compares against `ESP_EVENT_ESPNOW`. -/
inductive esp_event_base_t
  | ESP_EVENT_ESPNOW
  | other (name : String)
  deriving DecidableEq, Repr

/-- Event ids (`int32_t id`) with the three ids `main.c` switches on. -/
inductive espnow_event_id_t
  | ESP_EVENT_ESPNOW_CTRL_BIND
  | ESP_EVENT_ESPNOW_CTRL_BIND_ERROR
  | ESP_EVENT_ESPNOW_CTRL_UNBIND
  | other (id : Int)
  deriving DecidableEq, Repr

/-- What `void *event_data` points to.  The handler casts it according to `id`. -/
inductive event_data_t
  | bind_info (info : espnow_ctrl_bind_info_t)
  | bind_error (reason : espnow_ctrl_bind_error_t)
  deriving DecidableEq, Repr

/-- The cast `(espnow_ctrl_bind_info_t *)event_data`.  A payload of the other
shape would be read as raw memory; it only reaches the log text. -/
def event_data_t.as_bind_info : event_data_t → espnow_ctrl_bind_info_t
  | .bind_info info => info
  | .bind_error _ => { mac := [], initiator_attribute := .other 0 }

/-- The cast `(espnow_ctrl_bind_error_t *)event_data`. -/
def event_data_t.as_bind_error : event_data_t → espnow_ctrl_bind_error_t
  | .bind_error reason => reason
  | .bind_info _ => .other 0

/-- Log levels used: `ESP_LOGD`, `ESP_LOGI`, `ESP_LOGW`. -/
inductive esp_log_level_t
  | ESP_LOG_WARN
  | ESP_LOG_INFO
  | ESP_LOG_DEBUG
  deriving DecidableEq, Repr

/-- One argument of a log call. -/
inductive LogArg
  | num (n : Int)
  | str (s : String)
  | attribute (a : espnow_attribute_t)
  | mac (bytes : List Nat)
  deriving DecidableEq, Repr

/-! ## Program state and observable calls -/

/-- The enum `app_espnow_ctrl_status_t` of `main.c`. -/
inductive app_espnow_ctrl_status_t
  | APP_ESPNOW_CTRL_INIT
  | APP_ESPNOW_CTRL_BOUND
  | APP_ESPNOW_CTRL_MAX
  deriving DecidableEq, Repr

/-- The mutable variables of `main.c`: `static int32_t led_level`, the
`static int direction` local to `app_initiator_long_press_cb`, and
`s_espnow_ctrl_status`. -/
structure State where
  led_level : Int
  direction : Int
  s_espnow_ctrl_status : app_espnow_ctrl_status_t
  deriving DecidableEq, Repr

/-- The initialisers: `led_level = 0`, `direction = 1`, `APP_ESPNOW_CTRL_INIT`. -/
def State.initial : State :=
  { led_level := 0, direction := 1,
    s_espnow_ctrl_status := .APP_ESPNOW_CTRL_INIT }

/-- Calls observable from outside the handlers, in program order.
`app_led_set_level b` records entry into the actuator function with the value
`b` its `uint8_t` parameter holds; the two LEDC calls it makes follow.
`ledc_set_duty` is always called with `LEDC_MODE`, `LEDC_CHANNEL`; only the
duty is kept. -/
inductive Effect
  | app_led_set_level (brightness : Nat)
  | ledc_set_duty (duty : Nat)
  | ledc_update_duty
  | espnow_ctrl_initiator_send (initiator_attribute responder_attribute : espnow_attribute_t)
      (value : Nat)
  | espnow_ctrl_initiator_bind (initiator_attribute : espnow_attribute_t) (enable : Bool)
  | log (level : esp_log_level_t) (format : String) (args : List LogArg)
  deriving DecidableEq, Repr

/-- Result of running a handler: it returned, or `ESP_ERROR_CHECK` stopped the
program with the failing code `rc`.  Both carry the state and the calls made. -/
inductive Outcome
  | returned (s : State) (trace : List Effect)
  | aborted (rc : Int) (s : State) (trace : List Effect)
  deriving DecidableEq, Repr

/-! ## The functions of `main.c` -/

/-- The function `bind_error_to_string` (lines 39-67). -/
def bind_error_to_string : espnow_ctrl_bind_error_t → String
  | .ESPNOW_BIND_ERROR_NONE => "No error"
  | .ESPNOW_BIND_ERROR_TIMEOUT => "bind timeout"
  | .ESPNOW_BIND_ERROR_RSSI => "bind packet RSSI below expected threshold"
  | .ESPNOW_BIND_ERROR_LIST_FULL => "bindlist is full"
  | .other _ => "unknown error"

/-- The function `app_led_set_level` (lines 108-114), given the value of its
`uint8_t` parameter.  `brightness*8192/100` is `int` arithmetic (at most
`255*8192`), then cast to `uint32_t`.  `ledc_update_duty` is taken to return
`ESP_OK`, so the `ESP_ERROR_CHECK` around it passes. -/
def app_led_set_level (brightness : Nat) : List Effect :=
  [ .app_led_set_level brightness,
    .ledc_set_duty (toUInt32 ((brightness : Int) * 8192 / 100)),
    .ledc_update_duty ]

/-- The function `app_initiator_send_data` (lines 117-127).  It reads the
state and changes none of it.  `led_level` is converted to `uint8_t` for
`app_led_set_level` and to `uint32_t` for `espnow_ctrl_initiator_send`. -/
def app_initiator_send_data (s : State) : List Effect :=
  app_led_set_level (toUInt8 s.led_level) ++
  (if s.s_espnow_ctrl_status = .APP_ESPNOW_CTRL_BOUND then
    [ .log .ESP_LOG_DEBUG "initiator send press" [],
      .log .ESP_LOG_INFO "Send signal to lamp: %u" [.num (toUInt32 s.led_level)],
      .espnow_ctrl_initiator_send .ESPNOW_ATTRIBUTE_KEY_1 .ESPNOW_ATTRIBUTE_POWER
        (toUInt32 s.led_level) ]
  else
    [ .log .ESP_LOG_INFO "please double click to bind the devices firstly" [] ])

/-- The value of `!(expected == iot_button_get_event(arg))`. -/
def event_mismatch (expected got : button_event_t) : Int :=
  if expected = got then 0 else 1

/-- The function `app_initiator_send_press_cb` (lines 130-139); `event` is
the value of `iot_button_get_event(arg)`. -/
def app_initiator_send_press_cb (s : State) (event : button_event_t) : Outcome :=
  if event_mismatch .BUTTON_SINGLE_CLICK event ≠ 0 then
    .aborted (event_mismatch .BUTTON_SINGLE_CLICK event) s []
  else
    let s1 : State :=
      if s.led_level > 0 then { s with led_level := 0 } else { s with led_level := 100 }
    .returned s1 (app_initiator_send_data s1)

/-- The function `app_initiator_long_press_cb` (lines 142-158).  The sum
`led_level += direction * 8` is taken in 32-bit two's complement; for a level in
[0,100] and a direction of +1 or -1 it is the exact sum. -/
def app_initiator_long_press_cb (s : State) (event : button_event_t) : Outcome :=
  if event_mismatch .BUTTON_LONG_PRESS_HOLD event ≠ 0 then
    .aborted (event_mismatch .BUTTON_LONG_PRESS_HOLD event) s []
  else
    let s1 : State :=
      { s with led_level := wrapInt32 (s.led_level + wrapInt32 (s.direction * 8)) }
    let s2 : State :=
      if s1.led_level > 100 then { s1 with direction := -1, led_level := 100 }
      else if s1.led_level < 0 then { s1 with direction := 1, led_level := 0 }
      else s1
    .returned s2 (app_initiator_send_data s2)

/-- The function `app_initiator_bind_press_cb` (lines 161-172). -/
def app_initiator_bind_press_cb (s : State) (event : button_event_t) : Outcome :=
  if event_mismatch .BUTTON_DOUBLE_CLICK event ≠ 0 then
    .aborted (event_mismatch .BUTTON_DOUBLE_CLICK event) s []
  else if s.s_espnow_ctrl_status = .APP_ESPNOW_CTRL_INIT then
    .returned { s with s_espnow_ctrl_status := .APP_ESPNOW_CTRL_BOUND }
      [ .log .ESP_LOG_INFO "initiator bind press" [],
        .espnow_ctrl_initiator_bind .ESPNOW_ATTRIBUTE_KEY_1 true ]
  else
    .returned s [ .log .ESP_LOG_INFO "this device is already in bound status" [] ]

/-- The function `app_responder_ctrl_data_cb` (lines 193-208).  `status` is the
`uint32_t` argument; `led_level=status` converts it to `int32_t`. -/
def app_responder_ctrl_data_cb (s : State)
    (initiator_attribute responder_attribute : espnow_attribute_t) (status : Nat) : Outcome :=
  let status32 : Nat := status % 4294967296
  let s1 : State := { s with led_level := wrapInt32 (status32 : Int) }
  .returned s1
    ([ Effect.log .ESP_LOG_INFO
        "app_responder_ctrl_data_cb, initiator_attribute: %d, responder_attribute: %d, value: %u"
        [.attribute initiator_attribute, .attribute responder_attribute, .num status32] ]
      ++ app_led_set_level (toUInt8 s1.led_level)
      ++ app_initiator_send_data s1)

/-- The function `app_espnow_event_handler` (lines 217-245). -/
def app_espnow_event_handler (s : State) (base : esp_event_base_t)
    (id : espnow_event_id_t) (event_data : event_data_t) : Outcome :=
  if base ≠ .ESP_EVENT_ESPNOW then .returned s []
  else
    match id with
    | .ESP_EVENT_ESPNOW_CTRL_BIND =>
      .returned s
        [ .log .ESP_LOG_INFO "bind, uuid: %02x:%02x:%02x:%02x:%02x:%02x, initiator_type: %d"
            [.mac event_data.as_bind_info.mac,
             .attribute event_data.as_bind_info.initiator_attribute] ]
    | .ESP_EVENT_ESPNOW_CTRL_BIND_ERROR =>
      .returned s
        [ .log .ESP_LOG_WARN "bind error: %s"
            [.str (bind_error_to_string event_data.as_bind_error)] ]
    | .ESP_EVENT_ESPNOW_CTRL_UNBIND =>
      .returned s
        [ .log .ESP_LOG_INFO "unbind, uuid: %02x:%02x:%02x:%02x:%02x:%02x, initiator_type: %d"
            [.mac event_data.as_bind_info.mac,
             .attribute event_data.as_bind_info.initiator_attribute] ]
    | .other _ => .returned s []

/-! ## Event delivery

`button_init`, `app_responder_init` and `app_main` register each handler for
one source of events.  An `Input` is one delivery by the platform through
those registrations. -/

/-- One delivery: a gesture (the button component reports the kind the
callback was registered for), a received command, or an event-loop event. -/
inductive Input
  | single_click
  | double_click
  | long_press_hold
  | ctrl_data (initiator_attribute responder_attribute : espnow_attribute_t) (status : Nat)
  | espnow_event (base : esp_event_base_t) (id : espnow_event_id_t) (event_data : event_data_t)
  deriving DecidableEq, Repr

/-- The handler registered for the input, applied to it. -/
def deliver (s : State) : Input → Outcome
  | .single_click => app_initiator_send_press_cb s .BUTTON_SINGLE_CLICK
  | .double_click => app_initiator_bind_press_cb s .BUTTON_DOUBLE_CLICK
  | .long_press_hold => app_initiator_long_press_cb s .BUTTON_LONG_PRESS_HOLD
  | .ctrl_data ia ra status => app_responder_ctrl_data_cb s ia ra status
  | .espnow_event base id event_data => app_espnow_event_handler s base id event_data

/-- Deliveries in sequence; an abort ends the run.  The trace accumulates. -/
def run (s : State) : List Input → Outcome
  | [] => .returned s []
  | i :: rest =>
    match deliver s i with
    | .aborted rc s1 t1 => .aborted rc s1 t1
    | .returned s1 t1 =>
      match run s1 rest with
      | .returned s2 t2 => .returned s2 (t1 ++ t2)
      | .aborted rc s2 t2 => .aborted rc s2 (t1 ++ t2)

/-- State an outcome ends in. -/
def Outcome.state : Outcome → State
  | .returned s _ => s
  | .aborted _ s _ => s

/-- Calls an outcome made. -/
def Outcome.trace : Outcome → List Effect
  | .returned _ t => t
  | .aborted _ _ t => t

/-- Whether the handler returned (no `ESP_ERROR_CHECK` failure). -/
def Outcome.isReturned : Outcome → Bool
  | .returned _ _ => true
  | .aborted _ _ _ => false

/-- The network sends in a trace, as (key, attribute, value) triples. -/
def sends : List Effect → List (espnow_attribute_t × espnow_attribute_t × Nat)
  | [] => []
  | .espnow_ctrl_initiator_send k a v :: rest => (k, a, v) :: sends rest
  | _ :: rest => sends rest

/-- The bind requests in a trace. -/
def binds : List Effect → List (espnow_attribute_t × Bool)
  | [] => []
  | .espnow_ctrl_initiator_bind k e :: rest => (k, e) :: binds rest
  | _ :: rest => binds rest

/-- The brightness arguments of the actuator calls in a trace. -/
def actuations : List Effect → List Nat
  | [] => []
  | .app_led_set_level b :: rest => b :: actuations rest
  | _ :: rest => actuations rest

/-- `n` long-press-hold ticks in a row (the button is held). -/
def hold (s : State) (n : Nat) : Outcome :=
  run s (List.replicate n .long_press_hold)

/-- A received command whose value is a brightness percentage (at most 100);
every other kind of input qualifies. -/
def Input.valueInRange : Input → Prop
  | .ctrl_data _ _ status => status ≤ 100
  | _ => True

/-- The data-model ranges of the spec: level in [0,100], direction +1 or -1. -/
def State.inRange (s : State) : Prop :=
  0 ≤ s.led_level ∧ s.led_level ≤ 100 ∧ (s.direction = 1 ∨ s.direction = -1)

/-- The duties handed to `ledc_set_duty` in a trace. -/
def duties : List Effect → List Nat
  | [] => []
  | .ledc_set_duty duty :: rest => duty :: duties rest
  | _ :: rest => duties rest

/-! ## Arithmetic helpers -/

theorem wrapInt32_of_range (x : Int) (h1 : -2147483648 ≤ x) (h2 : x < 2147483648) :
    wrapInt32 x = x := by
  unfold wrapInt32; omega

theorem wrapInt32_bounds (x : Int) :
    -2147483648 ≤ wrapInt32 x ∧ wrapInt32 x < 2147483648 := by
  unfold wrapInt32; omega

theorem toUInt8_of_range (x : Int) (h1 : 0 ≤ x) (h2 : x < 256) :
    toUInt8 x = x.toNat := by
  unfold toUInt8; congr 1; omega

theorem toUInt32_of_range (x : Int) (h1 : 0 ≤ x) (h2 : x < 4294967296) :
    toUInt32 x = x.toNat := by
  unfold toUInt32; congr 1; omega

/-- The long-press handler on a matching event, for a state in the data-model
ranges: no wrap-around occurs and the outcome is the clamp of
`led_level + direction*8`. -/
theorem long_press_cb_inRange (s : State) (h : s.inRange) :
    app_initiator_long_press_cb s .BUTTON_LONG_PRESS_HOLD =
      (let r := s.led_level + s.direction * 8
       let s2 : State :=
         if 100 < r then { s with direction := -1, led_level := 100 }
         else if r < 0 then { s with direction := 1, led_level := 0 }
         else { s with led_level := r }
       .returned s2 (app_initiator_send_data s2)) := by
  obtain ⟨h0, h1, hd⟩ := h
  have hw : wrapInt32 (s.led_level + wrapInt32 (s.direction * 8))
      = s.led_level + s.direction * 8 := by
    rw [wrapInt32_of_range (s.direction * 8) (by omega) (by omega)]
    exact wrapInt32_of_range _ (by omega) (by omega)
  simp only [app_initiator_long_press_cb, event_mismatch, hw]
  simp only [if_true, ne_eq, not_true_eq_false, if_false, gt_iff_lt]

/-- The single-click handler on a matching event, for every state. -/
theorem send_press_cb_match (s : State) :
    app_initiator_send_press_cb s .BUTTON_SINGLE_CLICK =
      (let s1 : State :=
         if s.led_level > 0 then { s with led_level := 0 } else { s with led_level := 100 }
       .returned s1 (app_initiator_send_data s1)) := by
  simp [app_initiator_send_press_cb, event_mismatch]

/-- The double-click handler on a matching event, for every state. -/
theorem bind_press_cb_match (s : State) :
    app_initiator_bind_press_cb s .BUTTON_DOUBLE_CLICK =
      (if s.s_espnow_ctrl_status = .APP_ESPNOW_CTRL_INIT then
        .returned { s with s_espnow_ctrl_status := .APP_ESPNOW_CTRL_BOUND }
          [ .log .ESP_LOG_INFO "initiator bind press" [],
            .espnow_ctrl_initiator_bind .ESPNOW_ATTRIBUTE_KEY_1 true ]
      else
        .returned s [ .log .ESP_LOG_INFO "this device is already in bound status" [] ]) := by
  simp [app_initiator_bind_press_cb, event_mismatch]

/-- The event handler returns with the state it was given. -/
theorem event_handler_state (s : State) (base : esp_event_base_t)
    (id : espnow_event_id_t) (d : event_data_t) :
    ∃ t, app_espnow_event_handler s base id d = .returned s t := by
  unfold app_espnow_event_handler
  split
  · exact ⟨_, rfl⟩
  · cases id <;> exact ⟨_, rfl⟩

/-- One delivery keeps the data-model ranges when a received value is at most 100. -/
theorem deliver_inRange (s : State) (i : Input) (hs : s.inRange) (hi : i.valueInRange) :
    ∃ s1 t1, deliver s i = .returned s1 t1 ∧ s1.inRange := by
  obtain ⟨h0, h1, hd⟩ := hs
  cases i with
  | single_click =>
    refine ⟨_, _, send_press_cb_match s, ?_⟩
    simp only [State.inRange]
    split <;> simp [hd]
  | double_click =>
    simp only [deliver, bind_press_cb_match]
    split
    · exact ⟨_, _, rfl, h0, h1, hd⟩
    · exact ⟨_, _, rfl, h0, h1, hd⟩
  | long_press_hold =>
    refine ⟨_, _, long_press_cb_inRange s ⟨h0, h1, hd⟩, ?_⟩
    simp only [State.inRange]
    split
    · simp
    · split
      · simp
      · refine ⟨?_, ?_, hd⟩ <;> simp only <;> omega
  | ctrl_data ia ra status =>
    refine ⟨_, _, rfl, ?_⟩
    have hv : status ≤ 100 := hi
    have hm : status % 4294967296 = status := Nat.mod_eq_of_lt (by omega)
    simp only [State.inRange, hm]
    rw [wrapInt32_of_range _ (by omega) (by omega)]
    exact ⟨by omega, by omega, hd⟩
  | espnow_event base id d =>
    obtain ⟨t, ht⟩ := event_handler_state s base id d
    exact ⟨s, t, ht, h0, h1, hd⟩

/-- A run from a state in the data-model ranges, every received value at most
100, returns and ends in such a state. -/
theorem run_inRange (inputs : List Input) :
    ∀ s : State, s.inRange → (∀ i ∈ inputs, i.valueInRange) →
      ∃ s1 t1, run s inputs = .returned s1 t1 ∧ s1.inRange := by
  induction inputs with
  | nil => intro s hs _; exact ⟨s, [], rfl, hs⟩
  | cons i rest ih =>
    intro s hs hi
    obtain ⟨s1, t1, h1, hs1⟩ := deliver_inRange s i hs (hi i (List.mem_cons_self _ _))
    obtain ⟨s2, t2, h2, hs2⟩ := ih s1 hs1 (fun j hj => hi j (List.mem_cons_of_mem _ hj))
    exact ⟨s2, t1 ++ t2, by simp [run, h1, h2], hs2⟩

theorem initial_inRange : State.initial.inRange := by
  simp [State.inRange, State.initial]

/-- The long-press handler on a matching event, for every state: it returns,
after `app_initiator_send_data` on the new state, with the level clamped into
[0,100] and the pairing status untouched. -/
theorem long_press_cb_match (s : State) :
    ∃ s2, app_initiator_long_press_cb s .BUTTON_LONG_PRESS_HOLD
        = .returned s2 (app_initiator_send_data s2) ∧
      0 ≤ s2.led_level ∧ s2.led_level ≤ 100 ∧
      s2.s_espnow_ctrl_status = s.s_espnow_ctrl_status := by
  simp only [app_initiator_long_press_cb, event_mismatch]
  simp only [if_true, ne_eq, not_true_eq_false, if_false, gt_iff_lt]
  split
  · exact ⟨_, rfl, by simp, by simp, rfl⟩
  · split
    · exact ⟨_, rfl, by simp, by simp, rfl⟩
    · refine ⟨_, rfl, ?_, ?_, rfl⟩ <;> simp only <;> omega

/-! ## Claims -/

/-- C1 (as stated, refuted): one received command carrying the 32-bit value 200,
delivered in the initial state, returns and leaves `led_level = 200`, outside
[0,100]. -/
theorem C1_level_escapes_range :
    (run State.initial
        [.ctrl_data .ESPNOW_ATTRIBUTE_KEY_1 .ESPNOW_ATTRIBUTE_POWER 200]).isReturned = true ∧
    (run State.initial
        [.ctrl_data .ESPNOW_ATTRIBUTE_KEY_1 .ESPNOW_ATTRIBUTE_POWER 200]).state.led_level = 200 ∧
    ¬ ((run State.initial
        [.ctrl_data .ESPNOW_ATTRIBUTE_KEY_1 .ESPNOW_ATTRIBUTE_POWER 200]).state.led_level
          ≤ 100) := by
  decide

/-- C1 (amended): starting from the initial state, every finite sequence of
handler invocations (single click, long-press-hold tick, double click, received
command, bind / bind-error / unbind and any other event) in which each received
command carries a value of at most 100 runs to completion, and the stored level
then satisfies `0 ≤ led_level ≤ 100`. -/
theorem C1_level_in_range_of_commands_in_range (inputs : List Input)
    (h : ∀ i ∈ inputs, i.valueInRange) :
    ∃ s t, run State.initial inputs = .returned s t ∧ 0 ≤ s.led_level ∧ s.led_level ≤ 100 := by
  obtain ⟨s, t, hr, h0, h1, _⟩ := run_inRange inputs State.initial initial_inRange h
  exact ⟨s, t, hr, h0, h1⟩

/-- C1 amended, at a concrete run: click, hold tick, double click, a command
carrying 42, another hold tick, then a bind-error event. -/
theorem C1_level_in_range_witness :
    (∀ i ∈ [Input.single_click, .long_press_hold, .double_click,
        .ctrl_data .ESPNOW_ATTRIBUTE_KEY_1 .ESPNOW_ATTRIBUTE_POWER 42, .long_press_hold,
        .espnow_event .ESP_EVENT_ESPNOW .ESP_EVENT_ESPNOW_CTRL_BIND_ERROR
          (.bind_error .ESPNOW_BIND_ERROR_TIMEOUT)], i.valueInRange) ∧
    ∃ s t, run State.initial [Input.single_click, .long_press_hold, .double_click,
        .ctrl_data .ESPNOW_ATTRIBUTE_KEY_1 .ESPNOW_ATTRIBUTE_POWER 42, .long_press_hold,
        .espnow_event .ESP_EVENT_ESPNOW .ESP_EVENT_ESPNOW_CTRL_BIND_ERROR
          (.bind_error .ESPNOW_BIND_ERROR_TIMEOUT)] = .returned s t ∧
      0 ≤ s.led_level ∧ s.led_level ≤ 100 :=
  ⟨by simp [Input.valueInRange],
   C1_level_in_range_of_commands_in_range _ (by simp [Input.valueInRange])⟩

/-- C2: one long-press-hold tick on a matching event, for a level in [0,100]
and a direction in {+1,-1}, returns, and with `r = led_level + direction*8`:
if `r > 100` the new level is 100 and the new direction -1; if `r < 0` the new
level is 0 and the new direction +1; otherwise the new level is `r` and the
direction is unchanged.  The direction changes to -1 exactly when `r > 100` and
changes to +1 exactly when `r < 0`. -/
theorem C2_long_press_tick (s : State) (h0 : 0 ≤ s.led_level) (h1 : s.led_level ≤ 100)
    (hd : s.direction = 1 ∨ s.direction = -1) :
    (app_initiator_long_press_cb s .BUTTON_LONG_PRESS_HOLD).isReturned = true ∧
    (100 < s.led_level + s.direction * 8 →
      (app_initiator_long_press_cb s .BUTTON_LONG_PRESS_HOLD).state.led_level = 100 ∧
      (app_initiator_long_press_cb s .BUTTON_LONG_PRESS_HOLD).state.direction = -1) ∧
    (s.led_level + s.direction * 8 < 0 →
      (app_initiator_long_press_cb s .BUTTON_LONG_PRESS_HOLD).state.led_level = 0 ∧
      (app_initiator_long_press_cb s .BUTTON_LONG_PRESS_HOLD).state.direction = 1) ∧
    (0 ≤ s.led_level + s.direction * 8 → s.led_level + s.direction * 8 ≤ 100 →
      (app_initiator_long_press_cb s .BUTTON_LONG_PRESS_HOLD).state.led_level
        = s.led_level + s.direction * 8 ∧
      (app_initiator_long_press_cb s .BUTTON_LONG_PRESS_HOLD).state.direction = s.direction) ∧
    ((s.direction ≠ -1 ∧
        (app_initiator_long_press_cb s .BUTTON_LONG_PRESS_HOLD).state.direction = -1)
      ↔ 100 < s.led_level + s.direction * 8) ∧
    ((s.direction ≠ 1 ∧
        (app_initiator_long_press_cb s .BUTTON_LONG_PRESS_HOLD).state.direction = 1)
      ↔ s.led_level + s.direction * 8 < 0) := by
  rw [long_press_cb_inRange s ⟨h0, h1, hd⟩]
  simp only [Outcome.isReturned, Outcome.state]
  by_cases hhi : 100 < s.led_level + s.direction * 8
  · simp only [if_pos hhi]
    refine ⟨trivial, fun _ => ⟨trivial, trivial⟩, fun h => ?_, fun _ h => ?_,
      ⟨fun _ => hhi, fun _ => ⟨?_, trivial⟩⟩, ⟨fun h => ?_, fun h => ?_⟩⟩ <;> omega
  · by_cases hlo : s.led_level + s.direction * 8 < 0
    · simp only [if_neg hhi, if_pos hlo]
      refine ⟨trivial, fun h => ?_, fun _ => ⟨trivial, trivial⟩, fun h _ => ?_,
        ⟨fun h => ?_, fun h => ?_⟩, ⟨fun _ => hlo, fun _ => ⟨?_, trivial⟩⟩⟩ <;> omega
    · simp only [if_neg hhi, if_neg hlo]
      refine ⟨trivial, fun h => ?_, fun h => ?_, fun _ _ => ⟨trivial, trivial⟩,
        ⟨fun h => ?_, fun h => ?_⟩, ⟨fun h => ?_, fun h => ?_⟩⟩ <;> omega

/-- C2 at level 96, direction +1 (so `r = 104`): the tick gives level 100 and
direction -1. -/
theorem C2_long_press_tick_witness :
    (app_initiator_long_press_cb
        { led_level := 96, direction := 1, s_espnow_ctrl_status := .APP_ESPNOW_CTRL_INIT }
        .BUTTON_LONG_PRESS_HOLD).state.led_level = 100 ∧
    (app_initiator_long_press_cb
        { led_level := 96, direction := 1, s_espnow_ctrl_status := .APP_ESPNOW_CTRL_INIT }
        .BUTTON_LONG_PRESS_HOLD).state.direction = -1 :=
  (C2_long_press_tick
    { led_level := 96, direction := 1, s_espnow_ctrl_status := .APP_ESPNOW_CTRL_INIT }
    (by decide) (by decide) (by decide)).2.1 (by decide)

/-- C3: for every level in [0,100], whatever the direction and pairing status,
the single-click handler on a matching event returns with level 0 when the level
was positive and with level 100 when it was 0; the resulting level is one of
these two values. -/
theorem C3_toggle (s : State) (h0 : 0 ≤ s.led_level) (h1 : s.led_level ≤ 100) :
    (app_initiator_send_press_cb s .BUTTON_SINGLE_CLICK).isReturned = true ∧
    (0 < s.led_level →
      (app_initiator_send_press_cb s .BUTTON_SINGLE_CLICK).state.led_level = 0) ∧
    (s.led_level = 0 →
      (app_initiator_send_press_cb s .BUTTON_SINGLE_CLICK).state.led_level = 100) ∧
    ((app_initiator_send_press_cb s .BUTTON_SINGLE_CLICK).state.led_level = 0 ∨
      (app_initiator_send_press_cb s .BUTTON_SINGLE_CLICK).state.led_level = 100) := by
  rw [send_press_cb_match]
  simp only [Outcome.isReturned, Outcome.state]
  by_cases hp : s.led_level > 0
  · simp only [if_pos hp]
    refine ⟨trivial, fun _ => trivial, fun h => ?_, Or.inl trivial⟩
    omega
  · simp only [if_neg hp]
    exact ⟨trivial, fun h => absurd h hp, fun _ => trivial, Or.inr trivial⟩

/-- C3 at level 37, direction -1, status BOUND: the click gives level 0. -/
theorem C3_toggle_witness :
    (app_initiator_send_press_cb
        { led_level := 37, direction := -1, s_espnow_ctrl_status := .APP_ESPNOW_CTRL_BOUND }
        .BUTTON_SINGLE_CLICK).state.led_level = 0 :=
  (C3_toggle
    { led_level := 37, direction := -1, s_espnow_ctrl_status := .APP_ESPNOW_CTRL_BOUND }
    (by decide) (by decide)).2.1 (by decide)

/-- C4: while the pairing status is BOUND, a received command with a value `v`
in [0,100] (any attributes, any prior level and direction) returns, sets the
level to `v`, calls the actuator with `v` (twice, and every actuator call
carries `v`), and emits exactly one outbound command,
(ESPNOW_ATTRIBUTE_KEY_1, ESPNOW_ATTRIBUTE_POWER, v). -/
theorem C4_receive_bound (s : State) (ia ra : espnow_attribute_t) (v : Nat) (hv : v ≤ 100)
    (hb : s.s_espnow_ctrl_status = .APP_ESPNOW_CTRL_BOUND) :
    (app_responder_ctrl_data_cb s ia ra v).isReturned = true ∧
    (app_responder_ctrl_data_cb s ia ra v).state.led_level = v ∧
    actuations (app_responder_ctrl_data_cb s ia ra v).trace = [v, v] ∧
    (∀ b ∈ actuations (app_responder_ctrl_data_cb s ia ra v).trace, b = v) ∧
    sends (app_responder_ctrl_data_cb s ia ra v).trace =
      [(.ESPNOW_ATTRIBUTE_KEY_1, .ESPNOW_ATTRIBUTE_POWER, v)] := by
  have hm : v % 4294967296 = v := Nat.mod_eq_of_lt (by omega)
  have hw : wrapInt32 (v : Int) = v := wrapInt32_of_range _ (by omega) (by omega)
  have h8 : toUInt8 (v : Int) = v := by
    rw [toUInt8_of_range _ (by omega) (by omega)]; simp
  have h32 : toUInt32 (v : Int) = v := by
    rw [toUInt32_of_range _ (by omega) (by omega)]; simp
  simp [app_responder_ctrl_data_cb, app_initiator_send_data, app_led_set_level,
    Outcome.isReturned, Outcome.state, Outcome.trace, actuations, sends, hm, hw, h8, h32, hb]

/-- C4 at `v = 42`, prior level 7, direction -1, received with attributes
(KEY_1, POWER): exactly one outbound command, carrying 42. -/
theorem C4_receive_bound_witness :
    sends (app_responder_ctrl_data_cb
        { led_level := 7, direction := -1, s_espnow_ctrl_status := .APP_ESPNOW_CTRL_BOUND }
        .ESPNOW_ATTRIBUTE_KEY_1 .ESPNOW_ATTRIBUTE_POWER 42).trace =
      [(.ESPNOW_ATTRIBUTE_KEY_1, .ESPNOW_ATTRIBUTE_POWER, 42)] :=
  (C4_receive_bound
    { led_level := 7, direction := -1, s_espnow_ctrl_status := .APP_ESPNOW_CTRL_BOUND }
    .ESPNOW_ATTRIBUTE_KEY_1 .ESPNOW_ATTRIBUTE_POWER 42 (by decide) rfl).2.2.2.2

/-- C5: for every level `l` and direction `d`, a double click while UNBOUND
returns with status BOUND after one log line and exactly one bind request,
`espnow_ctrl_initiator_bind(ESPNOW_ATTRIBUTE_KEY_1, true)`; a double click while
BOUND returns with status BOUND after one log line and no bind request.  In both
cases level and direction are unchanged and no command is sent. -/
theorem C5_bind_double_click (l d : Int) :
    app_initiator_bind_press_cb
        { led_level := l, direction := d, s_espnow_ctrl_status := .APP_ESPNOW_CTRL_INIT }
        .BUTTON_DOUBLE_CLICK =
      .returned
        { led_level := l, direction := d, s_espnow_ctrl_status := .APP_ESPNOW_CTRL_BOUND }
        [ .log .ESP_LOG_INFO "initiator bind press" [],
          .espnow_ctrl_initiator_bind .ESPNOW_ATTRIBUTE_KEY_1 true ] ∧
    binds (app_initiator_bind_press_cb
        { led_level := l, direction := d, s_espnow_ctrl_status := .APP_ESPNOW_CTRL_INIT }
        .BUTTON_DOUBLE_CLICK).trace = [(.ESPNOW_ATTRIBUTE_KEY_1, true)] ∧
    sends (app_initiator_bind_press_cb
        { led_level := l, direction := d, s_espnow_ctrl_status := .APP_ESPNOW_CTRL_INIT }
        .BUTTON_DOUBLE_CLICK).trace = [] ∧
    app_initiator_bind_press_cb
        { led_level := l, direction := d, s_espnow_ctrl_status := .APP_ESPNOW_CTRL_BOUND }
        .BUTTON_DOUBLE_CLICK =
      .returned
        { led_level := l, direction := d, s_espnow_ctrl_status := .APP_ESPNOW_CTRL_BOUND }
        [ .log .ESP_LOG_INFO "this device is already in bound status" [] ] ∧
    binds (app_initiator_bind_press_cb
        { led_level := l, direction := d, s_espnow_ctrl_status := .APP_ESPNOW_CTRL_BOUND }
        .BUTTON_DOUBLE_CLICK).trace = [] ∧
    sends (app_initiator_bind_press_cb
        { led_level := l, direction := d, s_espnow_ctrl_status := .APP_ESPNOW_CTRL_BOUND }
        .BUTTON_DOUBLE_CLICK).trace = [] := by
  simp [bind_press_cb_match, Outcome.trace, binds, sends]

/-- C6: while the pairing status is UNBOUND, for every level `l` and direction
`d`, a single click and a long-press-hold tick both return (no error) with the
status still UNBOUND; the calls they make are the actuator call, carrying the
new level, and one log line, so nothing is sent; the click leaves the level
given by the toggle rule, the tick leaves a level in [0,100] which, for `l` in
[0,100] and `d` in {+1,-1}, is the clamp of `l + d*8`. -/
theorem C6_unbound_local_only (l d : Int) :
    app_initiator_send_press_cb
        { led_level := l, direction := d, s_espnow_ctrl_status := .APP_ESPNOW_CTRL_INIT }
        .BUTTON_SINGLE_CLICK =
      .returned
        { led_level := if 0 < l then 0 else 100, direction := d,
          s_espnow_ctrl_status := .APP_ESPNOW_CTRL_INIT }
        (app_led_set_level (if 0 < l then 0 else 100) ++
          [ .log .ESP_LOG_INFO "please double click to bind the devices firstly" [] ]) ∧
    sends (app_initiator_send_press_cb
        { led_level := l, direction := d, s_espnow_ctrl_status := .APP_ESPNOW_CTRL_INIT }
        .BUTTON_SINGLE_CLICK).trace = [] ∧
    (app_initiator_long_press_cb
        { led_level := l, direction := d, s_espnow_ctrl_status := .APP_ESPNOW_CTRL_INIT }
        .BUTTON_LONG_PRESS_HOLD).isReturned = true ∧
    (app_initiator_long_press_cb
        { led_level := l, direction := d, s_espnow_ctrl_status := .APP_ESPNOW_CTRL_INIT }
        .BUTTON_LONG_PRESS_HOLD).state.s_espnow_ctrl_status = .APP_ESPNOW_CTRL_INIT ∧
    (app_initiator_long_press_cb
        { led_level := l, direction := d, s_espnow_ctrl_status := .APP_ESPNOW_CTRL_INIT }
        .BUTTON_LONG_PRESS_HOLD).trace =
      app_led_set_level (app_initiator_long_press_cb
        { led_level := l, direction := d, s_espnow_ctrl_status := .APP_ESPNOW_CTRL_INIT }
        .BUTTON_LONG_PRESS_HOLD).state.led_level.toNat ++
        [ .log .ESP_LOG_INFO "please double click to bind the devices firstly" [] ] ∧
    sends (app_initiator_long_press_cb
        { led_level := l, direction := d, s_espnow_ctrl_status := .APP_ESPNOW_CTRL_INIT }
        .BUTTON_LONG_PRESS_HOLD).trace = [] ∧
    0 ≤ (app_initiator_long_press_cb
        { led_level := l, direction := d, s_espnow_ctrl_status := .APP_ESPNOW_CTRL_INIT }
        .BUTTON_LONG_PRESS_HOLD).state.led_level ∧
    (app_initiator_long_press_cb
        { led_level := l, direction := d, s_espnow_ctrl_status := .APP_ESPNOW_CTRL_INIT }
        .BUTTON_LONG_PRESS_HOLD).state.led_level ≤ 100 ∧
    (0 ≤ l → l ≤ 100 → d = 1 ∨ d = -1 →
      (app_initiator_long_press_cb
        { led_level := l, direction := d, s_espnow_ctrl_status := .APP_ESPNOW_CTRL_INIT }
        .BUTTON_LONG_PRESS_HOLD).state.led_level =
        if 100 < l + d * 8 then 100 else if l + d * 8 < 0 then 0 else l + d * 8) := by
  refine ⟨?_, ?_, ?_, ?_, ?_, ?_, ?_, ?_, ?_⟩
  · rw [send_press_cb_match]
    by_cases hp : 0 < l
    · simp [hp, app_initiator_send_data, toUInt8]
    · simp [hp, app_initiator_send_data, toUInt8]
  · rw [send_press_cb_match]
    by_cases hp : 0 < l <;>
      simp [hp, app_initiator_send_data, app_led_set_level, sends]
  all_goals
    obtain ⟨s2, h, h0, h1, hst⟩ := long_press_cb_match
      { led_level := l, direction := d, s_espnow_ctrl_status := .APP_ESPNOW_CTRL_INIT }
    have h8 : toUInt8 s2.led_level = s2.led_level.toNat :=
      toUInt8_of_range _ h0 (by omega)
    simp only at hst
  · simp [h, Outcome.isReturned]
  · simp [h, Outcome.state, hst]
  · simp [h, Outcome.state, Outcome.trace, app_initiator_send_data, hst, h8]
  · rw [h]
    simp [Outcome.trace, app_initiator_send_data, app_led_set_level, hst, sends]
  · simpa [h, Outcome.state] using h0
  · simpa [h, Outcome.state] using h1
  · intro hl0 hl1 hd
    rw [long_press_cb_inRange _ ⟨hl0, hl1, hd⟩]
    simp only [Outcome.state]
    split
    · rfl
    · split <;> rfl

/-- C6 at level 96, direction +1, UNBOUND: the tick leaves level 100. -/
theorem C6_unbound_local_only_witness :
    (app_initiator_long_press_cb
        { led_level := 96, direction := 1, s_espnow_ctrl_status := .APP_ESPNOW_CTRL_INIT }
        .BUTTON_LONG_PRESS_HOLD).state.led_level = 100 :=
  (C6_unbound_local_only 96 1).2.2.2.2.2.2.2.2 (by decide) (by decide) (by decide)

/-- C7: for every starting level in [0,100], every starting direction in
{+1,-1} and every `n`, `n` consecutive long-press-hold ticks all return and the
level after them is in [0,100]. -/
theorem C7_hold_level_in_range (s : State) (h0 : 0 ≤ s.led_level) (h1 : s.led_level ≤ 100)
    (hd : s.direction = 1 ∨ s.direction = -1) (n : Nat) :
    ∃ s1 t1, hold s n = .returned s1 t1 ∧ 0 ≤ s1.led_level ∧ s1.led_level ≤ 100 := by
  have hall : ∀ i ∈ List.replicate n Input.long_press_hold, i.valueInRange := by
    intro i hi
    rw [List.eq_of_mem_replicate hi]
    trivial
  obtain ⟨s1, t1, hr, h0', h1', _⟩ := run_inRange _ s ⟨h0, h1, hd⟩ hall
  exact ⟨s1, t1, hr, h0', h1'⟩

/-- C7 at level 50, direction -1, after 20 ticks. -/
theorem C7_hold_level_in_range_witness :
    ∃ s1 t1,
      hold { led_level := 50, direction := -1, s_espnow_ctrl_status := .APP_ESPNOW_CTRL_INIT } 20
        = .returned s1 t1 ∧ 0 ≤ s1.led_level ∧ s1.led_level ≤ 100 :=
  C7_hold_level_in_range
    { led_level := 50, direction := -1, s_espnow_ctrl_status := .APP_ESPNOW_CTRL_INIT }
    (by decide) (by decide) (by decide) 20

/-- C8 (as stated, refuted): from level 92 with direction +1 the tick reaches
level 100 (`92 + 8 = 100` is not greater than 100) and the direction stays +1,
so the level touches the boundary without a flip. -/
theorem C8_boundary_touch_without_flip :
    (app_initiator_long_press_cb
        { led_level := 92, direction := 1, s_espnow_ctrl_status := .APP_ESPNOW_CTRL_INIT }
        .BUTTON_LONG_PRESS_HOLD).state.led_level = 100 ∧
    (app_initiator_long_press_cb
        { led_level := 92, direction := 1, s_espnow_ctrl_status := .APP_ESPNOW_CTRL_INIT }
        .BUTTON_LONG_PRESS_HOLD).state.direction = 1 ∧
    ¬ ((app_initiator_long_press_cb
          { led_level := 92, direction := 1, s_espnow_ctrl_status := .APP_ESPNOW_CTRL_INIT }
          .BUTTON_LONG_PRESS_HOLD).state.direction ≠ 1 ↔
        ((app_initiator_long_press_cb
          { led_level := 92, direction := 1, s_espnow_ctrl_status := .APP_ESPNOW_CTRL_INIT }
          .BUTTON_LONG_PRESS_HOLD).state.led_level = 100 ∨
         (app_initiator_long_press_cb
          { led_level := 92, direction := 1, s_espnow_ctrl_status := .APP_ESPNOW_CTRL_INIT }
          .BUTTON_LONG_PRESS_HOLD).state.led_level = 0)) := by
  decide

/-- C8 (amended): for a level in [0,100] and a direction in {+1,-1}, the
direction after a long-press-hold tick differs from the direction before it if
and only if `led_level + direction*8` is greater than 100 or less than 0; and
whenever it differs, the level after the tick is 100 or 0. -/
theorem C8_flip_iff_overshoot (s : State) (h0 : 0 ≤ s.led_level) (h1 : s.led_level ≤ 100)
    (hd : s.direction = 1 ∨ s.direction = -1) :
    ((app_initiator_long_press_cb s .BUTTON_LONG_PRESS_HOLD).state.direction ≠ s.direction ↔
      (100 < s.led_level + s.direction * 8 ∨ s.led_level + s.direction * 8 < 0)) ∧
    ((app_initiator_long_press_cb s .BUTTON_LONG_PRESS_HOLD).state.direction ≠ s.direction →
      (app_initiator_long_press_cb s .BUTTON_LONG_PRESS_HOLD).state.led_level = 100 ∨
      (app_initiator_long_press_cb s .BUTTON_LONG_PRESS_HOLD).state.led_level = 0) := by
  rw [long_press_cb_inRange s ⟨h0, h1, hd⟩]
  simp only [Outcome.state]
  by_cases hhi : 100 < s.led_level + s.direction * 8
  · simp only [if_pos hhi]
    exact ⟨⟨fun _ => Or.inl hhi, fun _ => by omega⟩, fun _ => Or.inl trivial⟩
  · by_cases hlo : s.led_level + s.direction * 8 < 0
    · simp only [if_neg hhi, if_pos hlo]
      exact ⟨⟨fun _ => Or.inr hlo, fun _ => by omega⟩, fun _ => Or.inr trivial⟩
    · simp only [if_neg hhi, if_neg hlo]
      exact ⟨⟨fun h => absurd rfl h, fun h => by omega⟩, fun h => absurd rfl h⟩

/-- C8 amended, at level 100, direction +1 (`r = 108`): the direction flips and
the level after the tick is 100 or 0. -/
theorem C8_flip_iff_overshoot_witness :
    (app_initiator_long_press_cb
        { led_level := 100, direction := 1, s_espnow_ctrl_status := .APP_ESPNOW_CTRL_INIT }
        .BUTTON_LONG_PRESS_HOLD).state.direction ≠ 1 ∧
    ((app_initiator_long_press_cb
        { led_level := 100, direction := 1, s_espnow_ctrl_status := .APP_ESPNOW_CTRL_INIT }
        .BUTTON_LONG_PRESS_HOLD).state.led_level = 100 ∨
     (app_initiator_long_press_cb
        { led_level := 100, direction := 1, s_espnow_ctrl_status := .APP_ESPNOW_CTRL_INIT }
        .BUTTON_LONG_PRESS_HOLD).state.led_level = 0) :=
  ⟨(C8_flip_iff_overshoot
      { led_level := 100, direction := 1, s_espnow_ctrl_status := .APP_ESPNOW_CTRL_INIT }
      (by decide) (by decide) (by decide)).1.mpr (by decide),
   (C8_flip_iff_overshoot
      { led_level := 100, direction := 1, s_espnow_ctrl_status := .APP_ESPNOW_CTRL_INIT }
      (by decide) (by decide) (by decide)).2 (by decide)⟩

/-- C9: from level 0 with direction +1 (any pairing status `st`), the `k`-th
long-press-hold tick leaves level `8*k` and direction +1 for `k = 1..12` (96
after the 12th); the 13th leaves level 100 and direction -1; the level is not 100
after fewer than 13 ticks.  All these runs return. -/
theorem C9_thirteen_ticks (st : app_espnow_ctrl_status_t) :
    (∀ k : Nat, 1 ≤ k → k ≤ 12 →
      (hold { led_level := 0, direction := 1, s_espnow_ctrl_status := st } k).isReturned = true ∧
      (hold { led_level := 0, direction := 1, s_espnow_ctrl_status := st } k).state.led_level
        = 8 * (k : Int) ∧
      (hold { led_level := 0, direction := 1, s_espnow_ctrl_status := st } k).state.direction
        = 1) ∧
    (hold { led_level := 0, direction := 1, s_espnow_ctrl_status := st } 12).state.led_level
      = 96 ∧
    (hold { led_level := 0, direction := 1, s_espnow_ctrl_status := st } 13).isReturned = true ∧
    (hold { led_level := 0, direction := 1, s_espnow_ctrl_status := st } 13).state.led_level
      = 100 ∧
    (hold { led_level := 0, direction := 1, s_espnow_ctrl_status := st } 13).state.direction
      = -1 ∧
    (∀ k : Nat, k < 13 →
      (hold { led_level := 0, direction := 1, s_espnow_ctrl_status := st } k).state.led_level
        ≠ 100) := by
  refine ⟨fun k hk1 hk2 => ?_, ?_, ?_, ?_, ?_, fun k hk => ?_⟩
  · interval_cases k <;> cases st <;> decide
  · cases st <;> decide
  · cases st <;> decide
  · cases st <;> decide
  · cases st <;> decide
  · interval_cases k <;> cases st <;> decide

/-- C9 at the 12th tick from the initial state: level 96, direction still +1. -/
theorem C9_thirteen_ticks_witness :
    (hold { led_level := 0, direction := 1, s_espnow_ctrl_status := .APP_ESPNOW_CTRL_INIT }
        12).state.led_level = 8 * ((12 : Nat) : Int) ∧
    (hold { led_level := 0, direction := 1, s_espnow_ctrl_status := .APP_ESPNOW_CTRL_INIT }
        12).state.direction = 1 :=
  ((C9_thirteen_ticks .APP_ESPNOW_CTRL_INIT).1 12 (by decide) (by decide)).2

/-- C10 (as stated, refuted): from the initial state, a double click issues a
bind request; after the bind-error event (reason TIMEOUT) the status is BOUND,
and the next double click issues no bind request. -/
theorem C10_retry_issues_no_bind :
    binds (deliver State.initial .double_click).trace = [(.ESPNOW_ATTRIBUTE_KEY_1, true)] ∧
    (run State.initial
        [.double_click,
         .espnow_event .ESP_EVENT_ESPNOW .ESP_EVENT_ESPNOW_CTRL_BIND_ERROR
           (.bind_error .ESPNOW_BIND_ERROR_TIMEOUT)]).state.s_espnow_ctrl_status
      = .APP_ESPNOW_CTRL_BOUND ∧
    binds (deliver
        (run State.initial
          [.double_click,
           .espnow_event .ESP_EVENT_ESPNOW .ESP_EVENT_ESPNOW_CTRL_BIND_ERROR
             (.bind_error .ESPNOW_BIND_ERROR_TIMEOUT)]).state
        .double_click).trace = [] := by
  decide

/-- C10 (amended): for every bind-error reason, level `l` and direction `d`,
the run "double click while UNBOUND, bind-error event, double click" returns
with status BOUND and makes exactly one bind request, the one of the first double
click.  After the first two deliveries the status is BOUND (the bind-error event
only logs the reason), and the double click delivered in that state only logs
that the device is already bound: it issues no bind request. -/
theorem C10_bind_error_then_double_click (reason : espnow_ctrl_bind_error_t) (l d : Int) :
    run { led_level := l, direction := d, s_espnow_ctrl_status := .APP_ESPNOW_CTRL_INIT }
        [.double_click,
         .espnow_event .ESP_EVENT_ESPNOW .ESP_EVENT_ESPNOW_CTRL_BIND_ERROR (.bind_error reason),
         .double_click] =
      .returned
        { led_level := l, direction := d, s_espnow_ctrl_status := .APP_ESPNOW_CTRL_BOUND }
        [ .log .ESP_LOG_INFO "initiator bind press" [],
          .espnow_ctrl_initiator_bind .ESPNOW_ATTRIBUTE_KEY_1 true,
          .log .ESP_LOG_WARN "bind error: %s" [.str (bind_error_to_string reason)],
          .log .ESP_LOG_INFO "this device is already in bound status" [] ] ∧
    run { led_level := l, direction := d, s_espnow_ctrl_status := .APP_ESPNOW_CTRL_INIT }
        [.double_click,
         .espnow_event .ESP_EVENT_ESPNOW .ESP_EVENT_ESPNOW_CTRL_BIND_ERROR (.bind_error reason)] =
      .returned
        { led_level := l, direction := d, s_espnow_ctrl_status := .APP_ESPNOW_CTRL_BOUND }
        [ .log .ESP_LOG_INFO "initiator bind press" [],
          .espnow_ctrl_initiator_bind .ESPNOW_ATTRIBUTE_KEY_1 true,
          .log .ESP_LOG_WARN "bind error: %s" [.str (bind_error_to_string reason)] ] ∧
    deliver
        { led_level := l, direction := d, s_espnow_ctrl_status := .APP_ESPNOW_CTRL_BOUND }
        .double_click =
      .returned
        { led_level := l, direction := d, s_espnow_ctrl_status := .APP_ESPNOW_CTRL_BOUND }
        [ .log .ESP_LOG_INFO "this device is already in bound status" [] ] ∧
    binds (deliver
        { led_level := l, direction := d, s_espnow_ctrl_status := .APP_ESPNOW_CTRL_BOUND }
        .double_click).trace = [] := by
  simp [run, deliver, bind_press_cb_match, app_espnow_event_handler,
    event_data_t.as_bind_error, Outcome.trace, binds]

/-! ## Further helpers -/

/-- Storing a `uint32_t` in `led_level` and reading it back as `uint32_t`
gives the value again. -/
theorem toUInt32_wrapInt32 (n : Nat) (h : n < 4294967296) :
    toUInt32 (wrapInt32 (n : Int)) = n := by
  unfold toUInt32 wrapInt32
  have e : (((n : Int) + 2147483648) % 4294967296 - 2147483648) % 4294967296 = (n : Int) := by
    omega
  rw [e]
  simp

/-- The sends of `app_initiator_send_data`: one when BOUND, none otherwise. -/
theorem sends_send_data (s : State) :
    sends (app_initiator_send_data s) =
      if s.s_espnow_ctrl_status = .APP_ESPNOW_CTRL_BOUND then
        [(.ESPNOW_ATTRIBUTE_KEY_1, .ESPNOW_ATTRIBUTE_POWER, toUInt32 s.led_level)]
      else [] := by
  unfold app_initiator_send_data app_led_set_level
  split <;> simp [sends]

/-- The actuator calls of `app_initiator_send_data`: one, with the level as
`uint8_t`. -/
theorem actuations_send_data (s : State) :
    actuations (app_initiator_send_data s) = [toUInt8 s.led_level] := by
  unfold app_initiator_send_data app_led_set_level
  split <;> simp [actuations]

/-- The function `app_initiator_send_data` requests no bind. -/
theorem binds_send_data (s : State) : binds (app_initiator_send_data s) = [] := by
  unfold app_initiator_send_data app_led_set_level
  split <;> simp [binds]

/-! ## Claims, continued -/

/-- C11 (as stated, refuted): in the initial state (status UNBOUND) a received
command carrying 42 returns with level 42 and emits no outbound command. -/
theorem C11_no_echo_while_unbound :
    (app_responder_ctrl_data_cb State.initial
        .ESPNOW_ATTRIBUTE_KEY_1 .ESPNOW_ATTRIBUTE_POWER 42).state.led_level = 42 ∧
    sends (app_responder_ctrl_data_cb State.initial
        .ESPNOW_ATTRIBUTE_KEY_1 .ESPNOW_ATTRIBUTE_POWER 42).trace = [] := by
  decide

/-- C11 (amended): for every prior level and direction, all attributes and every
delivered value `v`, `app_responder_ctrl_data_cb` returns; while the status is
BOUND it emits exactly one `espnow_ctrl_initiator_send`,
(ESPNOW_ATTRIBUTE_KEY_1, ESPNOW_ATTRIBUTE_POWER, payload), whose payload is the
level after the handler converted to `uint32_t`, that is `v` as a 32-bit value,
and which is the level itself when `v < 2^31`; while the status is not BOUND it
emits none. -/
theorem C11_echo_iff_bound (s : State) (ia ra : espnow_attribute_t) (v : Nat) :
    (app_responder_ctrl_data_cb s ia ra v).isReturned = true ∧
    (s.s_espnow_ctrl_status = .APP_ESPNOW_CTRL_BOUND →
      sends (app_responder_ctrl_data_cb s ia ra v).trace =
        [(.ESPNOW_ATTRIBUTE_KEY_1, .ESPNOW_ATTRIBUTE_POWER,
          toUInt32 (app_responder_ctrl_data_cb s ia ra v).state.led_level)] ∧
      toUInt32 (app_responder_ctrl_data_cb s ia ra v).state.led_level = v % 4294967296 ∧
      (v < 2147483648 → (app_responder_ctrl_data_cb s ia ra v).state.led_level = v)) ∧
    (s.s_espnow_ctrl_status ≠ .APP_ESPNOW_CTRL_BOUND →
      sends (app_responder_ctrl_data_cb s ia ra v).trace = []) := by
  have hlt : v % 4294967296 < 4294967296 := Nat.mod_lt _ (by decide)
  have hs : sends (app_responder_ctrl_data_cb s ia ra v).trace =
      sends (app_initiator_send_data
        { s with led_level := wrapInt32 ((v % 4294967296 : Nat) : Int) }) := by
    simp [app_responder_ctrl_data_cb, Outcome.trace, app_led_set_level, sends]
  refine ⟨rfl, fun hb => ⟨?_, ?_, fun hv => ?_⟩, fun hb => ?_⟩
  · rw [hs, sends_send_data]
    simp [hb, app_responder_ctrl_data_cb, Outcome.state]
  · simp only [app_responder_ctrl_data_cb, Outcome.state]
    exact toUInt32_wrapInt32 _ hlt
  · simp only [app_responder_ctrl_data_cb, Outcome.state]
    rw [Nat.mod_eq_of_lt (by omega)]
    exact wrapInt32_of_range _ (by omega) (by omega)
  · rw [hs, sends_send_data]
    simp [hb]

/-- C11 amended, at value 42 with status BOUND (prior level 7, direction -1):
one outbound command, and the level after the handler is 42. -/
theorem C11_echo_iff_bound_witness :
    sends (app_responder_ctrl_data_cb
        { led_level := 7, direction := -1, s_espnow_ctrl_status := .APP_ESPNOW_CTRL_BOUND }
        .ESPNOW_ATTRIBUTE_KEY_1 .ESPNOW_ATTRIBUTE_POWER 42).trace =
      [(.ESPNOW_ATTRIBUTE_KEY_1, .ESPNOW_ATTRIBUTE_POWER,
        toUInt32 (app_responder_ctrl_data_cb
          { led_level := 7, direction := -1, s_espnow_ctrl_status := .APP_ESPNOW_CTRL_BOUND }
          .ESPNOW_ATTRIBUTE_KEY_1 .ESPNOW_ATTRIBUTE_POWER 42).state.led_level)] ∧
    (app_responder_ctrl_data_cb
        { led_level := 7, direction := -1, s_espnow_ctrl_status := .APP_ESPNOW_CTRL_BOUND }
        .ESPNOW_ATTRIBUTE_KEY_1 .ESPNOW_ATTRIBUTE_POWER 42).state.led_level = ((42 : Nat) : Int) :=
  ⟨((C11_echo_iff_bound
      { led_level := 7, direction := -1, s_espnow_ctrl_status := .APP_ESPNOW_CTRL_BOUND }
      .ESPNOW_ATTRIBUTE_KEY_1 .ESPNOW_ATTRIBUTE_POWER 42).2.1 rfl).1,
   ((C11_echo_iff_bound
      { led_level := 7, direction := -1, s_espnow_ctrl_status := .APP_ESPNOW_CTRL_BOUND }
      .ESPNOW_ATTRIBUTE_KEY_1 .ESPNOW_ATTRIBUTE_POWER 42).2.1 rfl).2.2 (by decide)⟩

/-- C12: while the pairing status is BOUND, for every level and direction, a
single click and a long-press-hold tick both return and each emits exactly one
outbound command, (ESPNOW_ATTRIBUTE_KEY_1, ESPNOW_ATTRIBUTE_POWER, L'), where
`L'` is the level after the toggle / ramp update (a value in [0,100]). -/
theorem C12_send_when_bound (s : State)
    (hb : s.s_espnow_ctrl_status = .APP_ESPNOW_CTRL_BOUND) :
    (app_initiator_send_press_cb s .BUTTON_SINGLE_CLICK).isReturned = true ∧
    sends (app_initiator_send_press_cb s .BUTTON_SINGLE_CLICK).trace =
      [(.ESPNOW_ATTRIBUTE_KEY_1, .ESPNOW_ATTRIBUTE_POWER,
        (app_initiator_send_press_cb s .BUTTON_SINGLE_CLICK).state.led_level.toNat)] ∧
    0 ≤ (app_initiator_send_press_cb s .BUTTON_SINGLE_CLICK).state.led_level ∧
    (app_initiator_send_press_cb s .BUTTON_SINGLE_CLICK).state.led_level ≤ 100 ∧
    (app_initiator_long_press_cb s .BUTTON_LONG_PRESS_HOLD).isReturned = true ∧
    sends (app_initiator_long_press_cb s .BUTTON_LONG_PRESS_HOLD).trace =
      [(.ESPNOW_ATTRIBUTE_KEY_1, .ESPNOW_ATTRIBUTE_POWER,
        (app_initiator_long_press_cb s .BUTTON_LONG_PRESS_HOLD).state.led_level.toNat)] ∧
    0 ≤ (app_initiator_long_press_cb s .BUTTON_LONG_PRESS_HOLD).state.led_level ∧
    (app_initiator_long_press_cb s .BUTTON_LONG_PRESS_HOLD).state.led_level ≤ 100 := by
  obtain ⟨s2, h, h0, h1, hst⟩ := long_press_cb_match s
  rw [h, send_press_cb_match]
  simp only [Outcome.isReturned, Outcome.state, Outcome.trace, sends_send_data]
  refine ⟨trivial, ?_, ?_, ?_, trivial, ?_, h0, h1⟩
  · by_cases hp : s.led_level > 0
    · simp [if_pos hp, hb, toUInt32]
    · simp [if_neg hp, hb, toUInt32]
  · by_cases hp : s.led_level > 0
    · simp [if_pos hp]
    · simp [if_neg hp]
  · by_cases hp : s.led_level > 0
    · simp [if_pos hp]
    · simp [if_neg hp]
  · rw [if_pos (hst.trans hb), toUInt32_of_range _ h0 (by omega)]

/-- C12 at level 40, direction +1, status BOUND: the tick sends
(KEY_1, POWER, 48). -/
theorem C12_send_when_bound_witness :
    sends (app_initiator_long_press_cb
        { led_level := 40, direction := 1, s_espnow_ctrl_status := .APP_ESPNOW_CTRL_BOUND }
        .BUTTON_LONG_PRESS_HOLD).trace =
      [(.ESPNOW_ATTRIBUTE_KEY_1, .ESPNOW_ATTRIBUTE_POWER,
        (app_initiator_long_press_cb
          { led_level := 40, direction := 1, s_espnow_ctrl_status := .APP_ESPNOW_CTRL_BOUND }
          .BUTTON_LONG_PRESS_HOLD).state.led_level.toNat)] :=
  (C12_send_when_bound
    { led_level := 40, direction := 1, s_espnow_ctrl_status := .APP_ESPNOW_CTRL_BOUND }
    rfl).2.2.2.2.2.1

/-- C13: for every state, `app_espnow_event_handler` returns with the state
unchanged (status, level, direction) and makes no bind request, no send and no
actuator call, whatever the base, id and payload.  The bind-error event, for
every reason, only logs the reason; an event with another base, or with an
unknown id, does nothing at all. -/
theorem C13_event_handler_frame (s : State) (base : esp_event_base_t)
    (id : espnow_event_id_t) (event_data : event_data_t)
    (reason : espnow_ctrl_bind_error_t) (name : String) (n : Int) :
    (app_espnow_event_handler s base id event_data).isReturned = true ∧
    (app_espnow_event_handler s base id event_data).state = s ∧
    binds (app_espnow_event_handler s base id event_data).trace = [] ∧
    sends (app_espnow_event_handler s base id event_data).trace = [] ∧
    actuations (app_espnow_event_handler s base id event_data).trace = [] ∧
    app_espnow_event_handler s .ESP_EVENT_ESPNOW .ESP_EVENT_ESPNOW_CTRL_BIND_ERROR
        (.bind_error reason) =
      .returned s [ .log .ESP_LOG_WARN "bind error: %s" [.str (bind_error_to_string reason)] ] ∧
    app_espnow_event_handler s (.other name) id event_data = .returned s [] ∧
    app_espnow_event_handler s base (.other n) event_data = .returned s [] := by
  refine ⟨?_, ?_, ?_, ?_, ?_, ?_, ?_, ?_⟩
  · cases base <;> cases id <;> rfl
  · cases base <;> cases id <;> rfl
  · cases base <;> cases id <;> rfl
  · cases base <;> cases id <;> rfl
  · cases base <;> cases id <;> rfl
  · rfl
  · rfl
  · cases base <;> rfl

/-- Every delivery returns; it leaves the pairing status as it was, except a
double click in status INIT, which sets BOUND. -/
theorem deliver_status (s : State) (i : Input) :
    ∃ s1 t1, deliver s i = .returned s1 t1 ∧
      (s1.s_espnow_ctrl_status = s.s_espnow_ctrl_status ∨
        (i = .double_click ∧ s.s_espnow_ctrl_status = .APP_ESPNOW_CTRL_INIT ∧
          s1.s_espnow_ctrl_status = .APP_ESPNOW_CTRL_BOUND)) := by
  cases i with
  | single_click =>
    refine ⟨_, _, send_press_cb_match s, Or.inl ?_⟩
    by_cases hp : s.led_level > 0
    · simp only [if_pos hp]
    · simp only [if_neg hp]
  | double_click =>
    rw [show deliver s .double_click = app_initiator_bind_press_cb s .BUTTON_DOUBLE_CLICK
      from rfl, bind_press_cb_match]
    by_cases h : s.s_espnow_ctrl_status = .APP_ESPNOW_CTRL_INIT
    · rw [if_pos h]
      exact ⟨_, _, rfl, Or.inr ⟨rfl, h, rfl⟩⟩
    · rw [if_neg h]
      exact ⟨_, _, rfl, Or.inl rfl⟩
  | long_press_hold =>
    obtain ⟨s2, h, _, _, hst⟩ := long_press_cb_match s
    exact ⟨s2, _, h, Or.inl hst⟩
  | ctrl_data ia ra status => exact ⟨_, _, rfl, Or.inl rfl⟩
  | espnow_event base id d =>
    obtain ⟨t, ht⟩ := event_handler_state s base id d
    exact ⟨s, t, ht, Or.inl rfl⟩

/-- A run from a BOUND state returns in a BOUND state. -/
theorem run_bound (inputs : List Input) :
    ∀ s : State, s.s_espnow_ctrl_status = .APP_ESPNOW_CTRL_BOUND →
      ∃ s1 t1, run s inputs = .returned s1 t1 ∧
        s1.s_espnow_ctrl_status = .APP_ESPNOW_CTRL_BOUND := by
  induction inputs with
  | nil => intro s hb; exact ⟨s, [], rfl, hb⟩
  | cons i rest ih =>
    intro s hb
    obtain ⟨s1, t1, h1, hs1⟩ := deliver_status s i
    have hb1 : s1.s_espnow_ctrl_status = .APP_ESPNOW_CTRL_BOUND := by
      rcases hs1 with h | ⟨_, hinit, _⟩
      · rw [h]; exact hb
      · rw [hb] at hinit; cases hinit
    obtain ⟨s2, t2, h2, hs2⟩ := ih s1 hb1
    exact ⟨s2, t1 ++ t2, by simp [run, h1, h2], hs2⟩

/-- C14: the status starts as UNBOUND; for every state and every delivered
event kind or value, the single-click, long-press, command-receive and event
handlers leave the status as it was, and the double-click handler either leaves
it or takes it from UNBOUND to BOUND; from a BOUND state every finite run of
deliveries returns in a BOUND state; the unbind event is logged and the state,
BOUND included, is returned unchanged. -/
theorem C14_status_one_way (s : State)
    (hb : s.s_espnow_ctrl_status = .APP_ESPNOW_CTRL_BOUND) (inputs : List Input) :
    State.initial.s_espnow_ctrl_status = .APP_ESPNOW_CTRL_INIT ∧
    (∃ s1 t1, run s inputs = .returned s1 t1 ∧
      s1.s_espnow_ctrl_status = .APP_ESPNOW_CTRL_BOUND) ∧
    (∀ (s0 : State) (ev : button_event_t),
      (app_initiator_send_press_cb s0 ev).state.s_espnow_ctrl_status
        = s0.s_espnow_ctrl_status) ∧
    (∀ (s0 : State) (ev : button_event_t),
      (app_initiator_long_press_cb s0 ev).state.s_espnow_ctrl_status
        = s0.s_espnow_ctrl_status) ∧
    (∀ (s0 : State) (ia ra : espnow_attribute_t) (v : Nat),
      (app_responder_ctrl_data_cb s0 ia ra v).state.s_espnow_ctrl_status
        = s0.s_espnow_ctrl_status) ∧
    (∀ (s0 : State) (base : esp_event_base_t) (id : espnow_event_id_t) (d : event_data_t),
      (app_espnow_event_handler s0 base id d).state.s_espnow_ctrl_status
        = s0.s_espnow_ctrl_status) ∧
    (∀ (s0 : State) (ev : button_event_t),
      (app_initiator_bind_press_cb s0 ev).state.s_espnow_ctrl_status
          = s0.s_espnow_ctrl_status ∨
        (s0.s_espnow_ctrl_status = .APP_ESPNOW_CTRL_INIT ∧
          (app_initiator_bind_press_cb s0 ev).state.s_espnow_ctrl_status
            = .APP_ESPNOW_CTRL_BOUND)) ∧
    (∀ info : espnow_ctrl_bind_info_t,
      app_espnow_event_handler s .ESP_EVENT_ESPNOW .ESP_EVENT_ESPNOW_CTRL_UNBIND
          (.bind_info info) =
        .returned s
          [ .log .ESP_LOG_INFO
              "unbind, uuid: %02x:%02x:%02x:%02x:%02x:%02x, initiator_type: %d"
              [.mac info.mac, .attribute info.initiator_attribute] ]) := by
  refine ⟨rfl, run_bound inputs s hb, ?_, ?_, ?_, ?_, ?_, fun _ => rfl⟩
  · intro s0 ev
    unfold app_initiator_send_press_cb
    split
    · rfl
    · simp only [Outcome.state]
      split <;> rfl
  · intro s0 ev
    by_cases he : ev = .BUTTON_LONG_PRESS_HOLD
    · obtain ⟨s2, h, _, _, hst⟩ := long_press_cb_match s0
      rw [he, h]
      exact hst
    · have hne : ¬ button_event_t.BUTTON_LONG_PRESS_HOLD = ev := fun h => he h.symm
      simp [app_initiator_long_press_cb, event_mismatch, hne, Outcome.state]
  · intro s0 ia ra v
    cases s0
    rfl
  · intro s0 base id d
    obtain ⟨t, ht⟩ := event_handler_state s0 base id d
    rw [ht]
    rfl
  · intro s0 ev
    unfold app_initiator_bind_press_cb
    split
    · exact Or.inl rfl
    · split
      · next h => exact Or.inr ⟨h, rfl⟩
      · exact Or.inl rfl

/-- C14 from the state reached by one double click, through a click, an unbind
event, a double click and a received command: the run returns BOUND. -/
theorem C14_status_one_way_witness :
    ∃ s1 t1,
      run { led_level := 0, direction := 1, s_espnow_ctrl_status := .APP_ESPNOW_CTRL_BOUND }
          [.single_click,
           .espnow_event .ESP_EVENT_ESPNOW .ESP_EVENT_ESPNOW_CTRL_UNBIND
             (.bind_info { mac := [1, 2, 3, 4, 5, 6],
                           initiator_attribute := .ESPNOW_ATTRIBUTE_KEY_1 }),
           .double_click,
           .ctrl_data .ESPNOW_ATTRIBUTE_KEY_1 .ESPNOW_ATTRIBUTE_POWER 30]
        = .returned s1 t1 ∧
      s1.s_espnow_ctrl_status = .APP_ESPNOW_CTRL_BOUND :=
  (C14_status_one_way
    { led_level := 0, direction := 1, s_espnow_ctrl_status := .APP_ESPNOW_CTRL_BOUND }
    rfl _).2.1

/-- C15: for every state, event kind, attributes, value, base, id and payload,
the single-click handler, the double-click handler, the command-receive handler
and the event handler (bind, bind-error, unbind or any other event) leave the
ramp direction exactly as it was; the long-press-hold tick is the handler that
changes it, for instance from +1 to -1 at level 100. -/
theorem C15_direction_frame (s : State) (ev : button_event_t)
    (ia ra : espnow_attribute_t) (v : Nat)
    (base : esp_event_base_t) (id : espnow_event_id_t) (event_data : event_data_t) :
    (app_initiator_send_press_cb s ev).state.direction = s.direction ∧
    (app_initiator_bind_press_cb s ev).state.direction = s.direction ∧
    (app_responder_ctrl_data_cb s ia ra v).state.direction = s.direction ∧
    (app_espnow_event_handler s base id event_data).state.direction = s.direction ∧
    (app_initiator_long_press_cb
        { led_level := 100, direction := 1, s_espnow_ctrl_status := s.s_espnow_ctrl_status }
        .BUTTON_LONG_PRESS_HOLD).state.direction = -1 := by
  refine ⟨?_, ?_, ?_, ?_, ?_⟩
  · by_cases he : button_event_t.BUTTON_SINGLE_CLICK = ev
    · rw [← he, send_press_cb_match]
      by_cases hp : s.led_level > 0
      · simp only [if_pos hp, Outcome.state]
      · simp only [if_neg hp, Outcome.state]
    · simp [app_initiator_send_press_cb, event_mismatch, he, Outcome.state]
  · by_cases he : button_event_t.BUTTON_DOUBLE_CLICK = ev
    · rw [← he, bind_press_cb_match]
      by_cases h : s.s_espnow_ctrl_status = .APP_ESPNOW_CTRL_INIT
      · simp only [if_pos h, Outcome.state]
      · simp only [if_neg h, Outcome.state]
    · simp [app_initiator_bind_press_cb, event_mismatch, he, Outcome.state]
  · cases s
    rfl
  · obtain ⟨t, ht⟩ := event_handler_state s base id event_data
    rw [ht]
    rfl
  · rw [long_press_cb_inRange _ ⟨by simp, by simp, Or.inl rfl⟩]
    simp [Outcome.state]

/-- C16: each gesture handler stops in `ESP_ERROR_CHECK` if and only if the
delivered event kind differs from the kind it was registered for (single click
for the toggle handler, double click for the bind handler, long-press-hold for
the ramp handler); when it stops, it does so with failing code 1, the state it
was given (level, direction, status) and an empty trace (no actuator call, send
or bind request). -/
theorem C16_abort_iff_mismatch (s : State) (ev : button_event_t) :
    ((app_initiator_send_press_cb s ev).isReturned = false ↔ ev ≠ .BUTTON_SINGLE_CLICK) ∧
    (ev ≠ .BUTTON_SINGLE_CLICK → app_initiator_send_press_cb s ev = .aborted 1 s []) ∧
    ((app_initiator_bind_press_cb s ev).isReturned = false ↔ ev ≠ .BUTTON_DOUBLE_CLICK) ∧
    (ev ≠ .BUTTON_DOUBLE_CLICK → app_initiator_bind_press_cb s ev = .aborted 1 s []) ∧
    ((app_initiator_long_press_cb s ev).isReturned = false ↔ ev ≠ .BUTTON_LONG_PRESS_HOLD) ∧
    (ev ≠ .BUTTON_LONG_PRESS_HOLD → app_initiator_long_press_cb s ev = .aborted 1 s []) := by
  have a1 : ev ≠ .BUTTON_SINGLE_CLICK → app_initiator_send_press_cb s ev = .aborted 1 s [] := by
    intro he
    have hne : ¬ button_event_t.BUTTON_SINGLE_CLICK = ev := fun h => he h.symm
    simp [app_initiator_send_press_cb, event_mismatch, hne]
  have a2 : ev ≠ .BUTTON_DOUBLE_CLICK → app_initiator_bind_press_cb s ev = .aborted 1 s [] := by
    intro he
    have hne : ¬ button_event_t.BUTTON_DOUBLE_CLICK = ev := fun h => he h.symm
    simp [app_initiator_bind_press_cb, event_mismatch, hne]
  have a3 : ev ≠ .BUTTON_LONG_PRESS_HOLD →
      app_initiator_long_press_cb s ev = .aborted 1 s [] := by
    intro he
    have hne : ¬ button_event_t.BUTTON_LONG_PRESS_HOLD = ev := fun h => he h.symm
    simp [app_initiator_long_press_cb, event_mismatch, hne]
  refine ⟨⟨fun h he => ?_, fun he => ?_⟩, a1, ⟨fun h he => ?_, fun he => ?_⟩, a2,
    ⟨fun h he => ?_, fun he => ?_⟩, a3⟩
  · rw [he, send_press_cb_match] at h
    exact Bool.noConfusion h
  · rw [a1 he]; rfl
  · rw [he, bind_press_cb_match] at h
    by_cases hs : s.s_espnow_ctrl_status = .APP_ESPNOW_CTRL_INIT
    · rw [if_pos hs] at h; exact Bool.noConfusion h
    · rw [if_neg hs] at h; exact Bool.noConfusion h
  · rw [a2 he]; rfl
  · obtain ⟨s2, h2, _⟩ := long_press_cb_match s
    rw [he, h2] at h
    exact Bool.noConfusion h
  · rw [a3 he]; rfl

/-- C16 for the toggle handler given a double-click event: it stops with the
state untouched and nothing called. -/
theorem C16_abort_iff_mismatch_witness :
    app_initiator_send_press_cb State.initial .BUTTON_DOUBLE_CLICK
      = .aborted 1 State.initial [] :=
  (C16_abort_iff_mismatch State.initial .BUTTON_DOUBLE_CLICK).2.1 (by decide)

/-- C17: for a level in [0,100] and a direction in {+1,-1}, a long-press-hold
tick returns and is monotone in the direction held before it: with direction +1
the level after the tick is at least the level before, with direction -1 it is
at most the level before. -/
theorem C17_tick_monotone (s : State) (h0 : 0 ≤ s.led_level) (h1 : s.led_level ≤ 100)
    (hd : s.direction = 1 ∨ s.direction = -1) :
    (app_initiator_long_press_cb s .BUTTON_LONG_PRESS_HOLD).isReturned = true ∧
    (s.direction = 1 →
      s.led_level ≤ (app_initiator_long_press_cb s .BUTTON_LONG_PRESS_HOLD).state.led_level) ∧
    (s.direction = -1 →
      (app_initiator_long_press_cb s .BUTTON_LONG_PRESS_HOLD).state.led_level ≤ s.led_level) := by
  rw [long_press_cb_inRange s ⟨h0, h1, hd⟩]
  simp only [Outcome.isReturned, Outcome.state]
  by_cases hhi : 100 < s.led_level + s.direction * 8
  · simp only [if_pos hhi]
    refine ⟨trivial, fun h => ?_, fun h => ?_⟩ <;> omega
  · by_cases hlo : s.led_level + s.direction * 8 < 0
    · simp only [if_neg hhi, if_pos hlo]
      refine ⟨trivial, fun h => ?_, fun h => ?_⟩ <;> omega
    · simp only [if_neg hhi, if_neg hlo]
      refine ⟨trivial, fun h => ?_, fun h => ?_⟩ <;> omega

/-- C17 at level 96, direction +1: the level after the tick (100) is at least
96. -/
theorem C17_tick_monotone_witness :
    (96 : Int) ≤ (app_initiator_long_press_cb
        { led_level := 96, direction := 1, s_espnow_ctrl_status := .APP_ESPNOW_CTRL_INIT }
        .BUTTON_LONG_PRESS_HOLD).state.led_level :=
  (C17_tick_monotone
    { led_level := 96, direction := 1, s_espnow_ctrl_status := .APP_ESPNOW_CTRL_INIT }
    (by decide) (by decide) (by decide)).2.1 rfl

/-- C18: `bind_error_to_string` is total; it maps ESPNOW_BIND_ERROR_NONE,
_TIMEOUT, _RSSI and _LIST_FULL to "No error", "bind timeout", "bind packet RSSI
below expected threshold" and "bindlist is full", which are pairwise distinct,
and every other reason value to "unknown error", which differs from all four. -/
theorem C18_bind_error_to_string :
    bind_error_to_string .ESPNOW_BIND_ERROR_NONE = "No error" ∧
    bind_error_to_string .ESPNOW_BIND_ERROR_TIMEOUT = "bind timeout" ∧
    bind_error_to_string .ESPNOW_BIND_ERROR_RSSI
      = "bind packet RSSI below expected threshold" ∧
    bind_error_to_string .ESPNOW_BIND_ERROR_LIST_FULL = "bindlist is full" ∧
    (∀ code : Nat, bind_error_to_string (.other code) = "unknown error") ∧
    [bind_error_to_string .ESPNOW_BIND_ERROR_NONE,
     bind_error_to_string .ESPNOW_BIND_ERROR_TIMEOUT,
     bind_error_to_string .ESPNOW_BIND_ERROR_RSSI,
     bind_error_to_string .ESPNOW_BIND_ERROR_LIST_FULL,
     bind_error_to_string (.other 0)].Nodup ∧
    (∀ r : espnow_ctrl_bind_error_t,
      bind_error_to_string r = "unknown error" ↔ ∃ code, r = .other code) := by
  refine ⟨rfl, rfl, rfl, rfl, fun _ => rfl, by decide, fun r => ?_⟩
  cases r with
  | other code => exact ⟨fun _ => ⟨code, rfl⟩, fun _ => rfl⟩
  | ESPNOW_BIND_ERROR_NONE =>
    exact ⟨fun h => absurd h (by decide), fun ⟨_, h⟩ => by cases h⟩
  | ESPNOW_BIND_ERROR_TIMEOUT =>
    exact ⟨fun h => absurd h (by decide), fun ⟨_, h⟩ => by cases h⟩
  | ESPNOW_BIND_ERROR_RSSI =>
    exact ⟨fun h => absurd h (by decide), fun ⟨_, h⟩ => by cases h⟩
  | ESPNOW_BIND_ERROR_LIST_FULL =>
    exact ⟨fun h => absurd h (by decide), fun ⟨_, h⟩ => by cases h⟩

/-! ## Actuator calls along a delivery -/

theorem actuations_append (a b : List Effect) :
    actuations (a ++ b) = actuations a ++ actuations b := by
  induction a with
  | nil => rfl
  | cons e rest ih => cases e <;> simp [actuations, ih]

theorem duties_append (a b : List Effect) :
    duties (a ++ b) = duties a ++ duties b := by
  induction a with
  | nil => rfl
  | cons e rest ih => cases e <;> simp [duties, ih]

/-- The duty `app_led_set_level` computes from an 8-bit brightness fits 32 bits:
it is `brightness*8192/100` rounded down. -/
theorem duty_of_brightness (b : Nat) (hb : b ≤ 255) :
    toUInt32 ((b : Int) * 8192 / 100) = b * 8192 / 100 := by
  unfold toUInt32
  have e1 : (b : Int) * 8192 / 100 = ((b * 8192 / 100 : Nat) : Int) := by omega
  have e2 : ((b * 8192 / 100 : Nat) : Int) % 4294967296 = ((b * 8192 / 100 : Nat) : Int) := by
    omega
  rw [e1, e2]
  exact Int.toNat_ofNat _

/-- The duties of `app_initiator_send_data`. -/
theorem duties_send_data (s : State) :
    duties (app_initiator_send_data s) =
      [toUInt32 ((toUInt8 s.led_level : Int) * 8192 / 100)] := by
  unfold app_initiator_send_data app_led_set_level
  split <;> simp [duties]

/-- The event handler calls neither the actuator nor the LEDC driver. -/
theorem event_handler_quiet (s : State) (base : esp_event_base_t)
    (id : espnow_event_id_t) (d : event_data_t) :
    actuations (app_espnow_event_handler s base id d).trace = [] ∧
    duties (app_espnow_event_handler s base id d).trace = [] := by
  cases base <;> cases id <;> exact ⟨rfl, rfl⟩

/-- In every delivery, each actuator call carries the `uint8_t` conversion of
the level the handler leaves, and each duty is computed from the brightness of
the call it belongs to. -/
theorem deliver_actuator_shape (s : State) (i : Input) :
    (∀ b ∈ actuations (deliver s i).trace, b = toUInt8 (deliver s i).state.led_level) ∧
    duties (deliver s i).trace =
      (actuations (deliver s i).trace).map
        (fun (b : Nat) => toUInt32 ((b : Int) * 8192 / 100)) := by
  cases i with
  | single_click =>
    rw [show deliver s .single_click = app_initiator_send_press_cb s .BUTTON_SINGLE_CLICK
      from rfl, send_press_cb_match]
    simp [Outcome.trace, Outcome.state, actuations_send_data, duties_send_data]
  | double_click =>
    rw [show deliver s .double_click = app_initiator_bind_press_cb s .BUTTON_DOUBLE_CLICK
      from rfl, bind_press_cb_match]
    by_cases h : s.s_espnow_ctrl_status = .APP_ESPNOW_CTRL_INIT
    · rw [if_pos h]; simp [Outcome.trace, actuations, duties]
    · rw [if_neg h]; simp [Outcome.trace, actuations, duties]
  | long_press_hold =>
    obtain ⟨s2, h, _⟩ := long_press_cb_match s
    rw [show deliver s .long_press_hold = app_initiator_long_press_cb s .BUTTON_LONG_PRESS_HOLD
      from rfl, h]
    simp [Outcome.trace, Outcome.state, actuations_send_data, duties_send_data]
  | ctrl_data ia ra status =>
    have ht : deliver s (.ctrl_data ia ra status) =
        .returned { s with led_level := wrapInt32 ((status % 4294967296 : Nat) : Int) }
          ([ Effect.log .ESP_LOG_INFO
              "app_responder_ctrl_data_cb, initiator_attribute: %d, responder_attribute: %d, value: %u"
              [.attribute ia, .attribute ra, .num ((status % 4294967296 : Nat) : Int)] ]
            ++ (app_led_set_level
                  (toUInt8 (wrapInt32 ((status % 4294967296 : Nat) : Int)))
                ++ app_initiator_send_data
                  { s with led_level := wrapInt32 ((status % 4294967296 : Nat) : Int) })) := by
      cases s
      rfl
    rw [ht]
    simp only [Outcome.trace, Outcome.state, actuations_append, duties_append,
      actuations_send_data, duties_send_data]
    simp [actuations, duties, app_led_set_level]
  | espnow_event base id d =>
    obtain ⟨ha, hd⟩ := event_handler_quiet s base id d
    rw [show deliver s (.espnow_event base id d) = app_espnow_event_handler s base id d
      from rfl, ha, hd]
    simp

/-- C19: if every received command value is at most 100, then every run from
the initial state returns, and in the state it reaches every further delivery
(with a received value at most 100) returns with each call of
`app_led_set_level` carrying, in its 8-bit parameter, exactly the brightness
level the handler leaves (no truncation), a percent within 0..100; the duty of
each call is `percent*8192/100` rounded down and lies in [0,8192]; percent 0
gives duty 0 and percent 100 gives duty 8192. -/
theorem C19_actuator_range (inputs : List Input) (h : ∀ j ∈ inputs, j.valueInRange)
    (i : Input) (hi : i.valueInRange) :
    (∃ s t, run State.initial inputs = .returned s t ∧
      ∃ s1 t1, deliver s i = .returned s1 t1 ∧
        (∀ b ∈ actuations t1, (b : Int) = s1.led_level ∧ b ≤ 100) ∧
        duties t1 = (actuations t1).map (fun b => b * 8192 / 100) ∧
        (∀ duty ∈ duties t1, duty ≤ 8192)) ∧
    duties (app_led_set_level 0) = [0] ∧
    duties (app_led_set_level 100) = [8192] := by
  refine ⟨?_, by decide, by decide⟩
  obtain ⟨s, t, hr, hs⟩ := run_inRange inputs State.initial initial_inRange h
  obtain ⟨s1, t1, hd, h0, h1, _⟩ := deliver_inRange s i hs hi
  have shape := deliver_actuator_shape s i
  rw [hd] at shape
  simp only [Outcome.trace, Outcome.state] at shape
  obtain ⟨sa, sd⟩ := shape
  have h8 : toUInt8 s1.led_level = s1.led_level.toNat := toUInt8_of_range _ h0 (by omega)
  have hb : ∀ b ∈ actuations t1, (b : Int) = s1.led_level ∧ b ≤ 100 := by
    intro b hmem
    have e := sa b hmem
    rw [h8] at e
    omega
  have hdut : duties t1 = (actuations t1).map (fun b => b * 8192 / 100) := by
    rw [sd]
    apply List.map_congr_left
    intro b hmem
    exact duty_of_brightness b (by have := (hb b hmem).2; omega)
  refine ⟨s, t, hr, s1, t1, hd, hb, hdut, ?_⟩
  intro duty hmem
  rw [hdut, List.mem_map] at hmem
  obtain ⟨b, hbm, rfl⟩ := hmem
  have := (hb b hbm).2
  omega

/-- C19 after a click, a command carrying 42 and a double click, for a further
long-press-hold tick. -/
theorem C19_actuator_range_witness :
    (∃ s t, run State.initial
        [.single_click, .ctrl_data .ESPNOW_ATTRIBUTE_KEY_1 .ESPNOW_ATTRIBUTE_POWER 42,
         .double_click] = .returned s t ∧
      ∃ s1 t1, deliver s .long_press_hold = .returned s1 t1 ∧
        (∀ b ∈ actuations t1, (b : Int) = s1.led_level ∧ b ≤ 100) ∧
        duties t1 = (actuations t1).map (fun b => b * 8192 / 100) ∧
        (∀ duty ∈ duties t1, duty ≤ 8192)) ∧
    duties (app_led_set_level 0) = [0] ∧
    duties (app_led_set_level 100) = [8192] :=
  C19_actuator_range
    [.single_click, .ctrl_data .ESPNOW_ATTRIBUTE_KEY_1 .ESPNOW_ATTRIBUTE_POWER 42,
     .double_click]
    (by simp [Input.valueInRange]) .long_press_hold trivial

/-! ## Runs in sequence -/

/-- An outcome that returned is `returned` of its state and trace. -/
theorem outcome_of_isReturned (o : Outcome) (h : o.isReturned = true) :
    o = .returned o.state o.trace := by
  cases o with
  | returned s t => rfl
  | aborted rc s t => exact Bool.noConfusion h

/-- A run over `xs ++ ys` whose first part returns in `s1` ends in the state
the run over `ys` from `s1` ends in, and returns exactly when that run does. -/
theorem run_append_state (xs ys : List Input) :
    ∀ (s s1 : State) (t1 : List Effect), run s xs = .returned s1 t1 →
      (run s (xs ++ ys)).state = (run s1 ys).state ∧
      (run s (xs ++ ys)).isReturned = (run s1 ys).isReturned := by
  induction xs with
  | nil =>
    intro s s1 t1 h
    simp only [run, Outcome.returned.injEq] at h
    rw [← h.1]
    exact ⟨rfl, rfl⟩
  | cons i rest ih =>
    intro s s1 t1 h
    simp only [List.cons_append, run] at h ⊢
    cases hd : deliver s i with
    | aborted rc sa ta => rw [hd] at h; cases h
    | returned sa ta =>
      rw [hd] at h
      simp only at h ⊢
      cases hr : run sa rest with
      | aborted rc sb tb => rw [hr] at h; cases h
      | returned sb tb =>
        rw [hr] at h
        simp only [Outcome.returned.injEq] at h
        have e := ih sa sb tb hr
        rw [h.1] at e
        rw [← e.1, ← e.2]
        cases run sa (rest ++ ys) <;> exact ⟨rfl, rfl⟩

/-- Ticks in sequence: `a + b` ticks end where `b` ticks from the state after
`a` ticks end, when the first `a` return. -/
theorem hold_add_state (s s1 : State) (t1 : List Effect) (a b : Nat)
    (h : hold s a = .returned s1 t1) :
    (hold s (a + b)).state = (hold s1 b).state ∧
    (hold s (a + b)).isReturned = (hold s1 b).isReturned := by
  unfold hold at h ⊢
  rw [List.replicate_add]
  exact run_append_state _ _ s s1 t1 h

/-- Two states with the same three fields are equal. -/
theorem state_eq_of_fields (a b : State) (h1 : a.led_level = b.led_level)
    (h2 : a.direction = b.direction)
    (h3 : a.s_espnow_ctrl_status = b.s_espnow_ctrl_status) : a = b := by
  cases a
  cases b
  simp only at h1 h2 h3
  rw [h1, h2, h3]

/-- Any number of ticks returns, with the pairing status it started with. -/
theorem hold_status (n : Nat) :
    ∀ s : State, ∃ s1 t1, hold s n = .returned s1 t1 ∧
      s1.s_espnow_ctrl_status = s.s_espnow_ctrl_status := by
  induction n with
  | zero => intro s; exact ⟨s, [], rfl, rfl⟩
  | succ n ih =>
    intro s
    obtain ⟨s2, h2, _, _, hst2⟩ := long_press_cb_match s
    obtain ⟨s3, t3, h3, hst3⟩ := ih s2
    unfold hold at h3 ⊢
    refine ⟨s3, app_initiator_send_data s2 ++ t3, ?_, hst3.trans hst2⟩
    simp only [List.replicate_succ, run, deliver, h2, h3]

set_option maxRecDepth 8192 in
/-- Thirteen ticks from (0, +1) return in (100, -1); thirteen ticks from
(100, -1) return in (0, +1). -/
theorem hold_half_cycles (st : app_espnow_ctrl_status_t) :
    hold { led_level := 0, direction := 1, s_espnow_ctrl_status := st } 13 =
      .returned { led_level := 100, direction := -1, s_espnow_ctrl_status := st }
        (hold { led_level := 0, direction := 1, s_espnow_ctrl_status := st } 13).trace ∧
    (hold { led_level := 100, direction := -1, s_espnow_ctrl_status := st } 13).state
      = { led_level := 0, direction := 1, s_espnow_ctrl_status := st } ∧
    (hold { led_level := 100, direction := -1, s_espnow_ctrl_status := st } 13).isReturned
      = true := by
  have r13 : (hold { led_level := 0, direction := 1, s_espnow_ctrl_status := st }
      13).isReturned = true := by cases st <;> decide
  have la : (hold { led_level := 0, direction := 1, s_espnow_ctrl_status := st }
      13).state.led_level = 100 := by cases st <;> decide
  have da : (hold { led_level := 0, direction := 1, s_espnow_ctrl_status := st }
      13).state.direction = -1 := by cases st <;> decide
  have lb : (hold { led_level := 100, direction := -1, s_espnow_ctrl_status := st }
      13).state.led_level = 0 := by cases st <;> decide
  have db : (hold { led_level := 100, direction := -1, s_espnow_ctrl_status := st }
      13).state.direction = 1 := by cases st <;> decide
  have sta : (hold { led_level := 0, direction := 1, s_espnow_ctrl_status := st }
      13).state.s_espnow_ctrl_status = st := by
    obtain ⟨s1, t1, h, hst⟩ := hold_status 13
      { led_level := 0, direction := 1, s_espnow_ctrl_status := st }
    rw [h]
    exact hst
  have stb : (hold { led_level := 100, direction := -1, s_espnow_ctrl_status := st }
      13).state.s_espnow_ctrl_status = st := by
    obtain ⟨s1, t1, h, hst⟩ := hold_status 13
      { led_level := 100, direction := -1, s_espnow_ctrl_status := st }
    rw [h]
    exact hst
  have s13 : (hold { led_level := 0, direction := 1, s_espnow_ctrl_status := st } 13).state
      = { led_level := 100, direction := -1, s_espnow_ctrl_status := st } :=
    state_eq_of_fields _ _ la da sta
  refine ⟨?_, state_eq_of_fields _ _ lb db stb, by cases st <;> decide⟩
  have e := outcome_of_isReturned _ r13
  rw [s13] at e
  exact e

/-- C20: holding the button from level 0 with direction +1 (any pairing status
`st`): after 13 ticks the state is (100, -1); after 26 ticks it is (0, +1)
again; after `k` ticks with `1 ≤ k < 26` it is not (0, +1); the level after
`13 + k` ticks is `100 - 8*k` for `k = 1..12`; and the state after `26 + n`
ticks is the state after `n` ticks, for every `n`. -/
theorem C20_ramp_cycle (st : app_espnow_ctrl_status_t) :
    (hold { led_level := 0, direction := 1, s_espnow_ctrl_status := st } 13).state
      = { led_level := 100, direction := -1, s_espnow_ctrl_status := st } ∧
    (hold { led_level := 0, direction := 1, s_espnow_ctrl_status := st } 26).isReturned = true ∧
    (hold { led_level := 0, direction := 1, s_espnow_ctrl_status := st } 26).state
      = { led_level := 0, direction := 1, s_espnow_ctrl_status := st } ∧
    (∀ k : Nat, 1 ≤ k → k < 26 →
      ¬ ((hold { led_level := 0, direction := 1, s_espnow_ctrl_status := st } k).state.led_level
            = 0 ∧
         (hold { led_level := 0, direction := 1, s_espnow_ctrl_status := st } k).state.direction
            = 1)) ∧
    (∀ k : Nat, 1 ≤ k → k ≤ 12 →
      (hold { led_level := 0, direction := 1, s_espnow_ctrl_status := st }
          (13 + k)).state.led_level = 100 - 8 * (k : Int)) ∧
    (∀ n : Nat,
      (hold { led_level := 0, direction := 1, s_espnow_ctrl_status := st } (26 + n)).state
        = (hold { led_level := 0, direction := 1, s_espnow_ctrl_status := st } n).state) := by
  obtain ⟨e13, sb, rb⟩ := hold_half_cycles st
  have h26 := hold_add_state _ _ _ 13 13 e13
  have r26 : (hold { led_level := 0, direction := 1, s_espnow_ctrl_status := st }
      26).isReturned = true := h26.2.trans rb
  have s26 : (hold { led_level := 0, direction := 1, s_espnow_ctrl_status := st } 26).state
      = { led_level := 0, direction := 1, s_espnow_ctrl_status := st } := h26.1.trans sb
  refine ⟨?_, r26, s26, fun k hk1 hk2 => ?_, fun k hk1 hk2 => ?_, fun n => ?_⟩
  · rw [e13]; rfl
  · interval_cases k <;> cases st <;> decide
  · interval_cases k <;> cases st <;> decide
  · have e26 := outcome_of_isReturned _ r26
    rw [s26] at e26
    exact (hold_add_state _ _ _ 26 n e26).1

/-- C20 at the 20th tick (`k = 7` of the descending half): level 44. -/
theorem C20_ramp_cycle_witness :
    (hold { led_level := 0, direction := 1, s_espnow_ctrl_status := .APP_ESPNOW_CTRL_INIT }
        (13 + 7)).state.led_level = 100 - 8 * ((7 : Nat) : Int) :=
  (C20_ramp_cycle .APP_ESPNOW_CTRL_INIT).2.2.2.2.1 7 (by decide) (by decide)

end Protopixel
